import Mathlib

/-!
Verification of the nodetool-apple adapter layer.

This file gives a shallow embedding of the string-processing and
subprocess-adapting logic of the `nodetool.nodes.apple` package
(`messages.py`, `mail.py`, `system.py`, `spotlight.py`, `shortcuts.py`,
`finder.py`) and proves the behavioural properties claimed by the
specification.  Subprocess execution is modelled by an explicit outcome
value (`SubOutcome`); Python exceptions are modelled with `Except` over
an error datatype (`PyError`).  All string operations are re-implemented
structurally on `List Char` so that every definition is executable and
kernel-reducible.
-/

namespace NodetoolApple

/-! ### Python string primitives -/

/-- The ASCII whitespace characters recognised by Python's `str.strip` /
`str.isspace` (space, tab, linefeed, carriage return, vertical tab, form feed). -/
def pyIsSpace (c : Char) : Bool :=
  c = ' ' || c = '\t' || c = '\n' || c = '\r' || c = '\x0b' || c = '\x0c'

/-- Python `str.strip()` on a character list: drop leading and trailing whitespace. -/
def pyStripList (l : List Char) : List Char :=
  ((l.dropWhile pyIsSpace).reverse.dropWhile pyIsSpace).reverse

/-- Python `str.strip()`. -/
def pyStrip (s : String) : String :=
  ⟨pyStripList s.data⟩

/-- Truthiness of `s.strip()` negated: `True` exactly when `not s.strip()` holds
in Python, i.e. the string is empty or consists only of whitespace. -/
def isBlank (s : String) : Bool :=
  s.data.all pyIsSpace

/-- Python `s.startswith(pre)`. -/
def pyStartsWith (s pre : String) : Bool :=
  pre.data.isPrefixOf s.data

/-- Fuel-indexed worker for Python `str.split(sep)` with a non-empty separator.
`cur` holds the (reversed) characters of the chunk being accumulated.  The fuel
is consumed once per step; `fuel = l.length` always suffices because every step
shortens `l`. -/
def pySplitGo (sep : List Char) : Nat → List Char → List Char → List (List Char)
  | 0, l, cur => [cur.reverse ++ l]
  | _ + 1, [], cur => [cur.reverse]
  | fuel + 1, c :: rest, cur =>
    if sep ≠ [] ∧ sep.isPrefixOf (c :: rest) then
      cur.reverse :: pySplitGo sep fuel ((c :: rest).drop sep.length) []
    else
      pySplitGo sep fuel rest (c :: cur)

/-- Python `s.split(sep)` for a non-empty separator `sep`: the list of chunks
of `s` between non-overlapping leftmost occurrences of `sep`.  `pySplit sep ""`
is `[""]`, matching Python. -/
def pySplit (sep s : String) : List String :=
  (pySplitGo sep.data s.data.length s.data []).map fun l => ⟨l⟩

/-- Python `str.splitlines()`: split on `\r\n`, `\r` or `\n`, with no empty
final line after a trailing terminator. -/
def pySplitlinesGo : List Char → List Char → List String
  | [], cur => if cur.isEmpty then [] else [⟨cur.reverse⟩]
  | '\r' :: '\n' :: rest, cur => ⟨cur.reverse⟩ :: pySplitlinesGo rest []
  | '\r' :: rest, cur => ⟨cur.reverse⟩ :: pySplitlinesGo rest []
  | '\n' :: rest, cur => ⟨cur.reverse⟩ :: pySplitlinesGo rest []
  | c :: rest, cur => pySplitlinesGo rest (c :: cur)

/-- Python `s.splitlines()`. -/
def pySplitlines (s : String) : List String :=
  pySplitlinesGo s.data []

/-- Python `s.isdigit()` restricted to ASCII digits (the only case the sources
rely on): non-empty and all characters are decimal digits. -/
def pyIsDigitStr (s : String) : Bool :=
  s ≠ "" && s.data.all Char.isDigit

/-- Python `int(s)` for a string of decimal digits. -/
def parseNatDigits (s : String) : Nat :=
  s.data.foldl (fun n c => n * 10 + (c.toNat - '0'.toNat)) 0

/-- Whether `pat` occurs as a contiguous substring of `s`. -/
def containsSubstr (s pat : String) : Bool :=
  s.data.tails.any fun t => pat.data.isPrefixOf t

/-! ### AppleScript text escaping (`escape_for_applescript`) -/

/-- Replace every occurrence of the single character `pat` by the character
sequence `repl` (Python `str.replace` for a one-character pattern). -/
def replaceChar (pat : Char) (repl : List Char) (l : List Char) : List Char :=
  l.flatMap fun c => if c = pat then repl else [c]

/-- Modelled from the spec: `escape_for_applescript` is defined in
`nodetool/nodes/apple/notes.py`, which is not part of the source corpus (only
its test file and its importers are).  Per the spec's contract it escapes
backslashes, double quotes, and newlines — backslash → double backslash,
quote → escaped quote, newline → the literal two-character `\n` escape —
applied in that order so earlier escaping is not re-escaped, and transforms
no other character. -/
def escape_for_applescript (s : String) : String :=
  ⟨replaceChar '\n' ['\\', 'n']
    (replaceChar '"' ['\\', '"']
      (replaceChar '\\' ['\\', '\\'] s.data))⟩

/-- The per-character escaping map implied by the three-pass definition:
backslash, double quote and newline are escaped, every other character is
passed through unchanged. -/
def escMap (c : Char) : List Char :=
  if c = '\\' then ['\\', '\\']
  else if c = '"' then ['\\', '"']
  else if c = '\n' then ['\\', 'n']
  else [c]

/-- Characterisation of the sequential three-pass escape as a single
character-wise transformation. -/
theorem escape_seq_eq_charwise (l : List Char) :
    replaceChar '\n' ['\\', 'n']
      (replaceChar '"' ['\\', '"']
        (replaceChar '\\' ['\\', '\\'] l)) = l.flatMap escMap := by
  induction l with
  | nil => rfl
  | cons c rest ih =>
    simp only [replaceChar, List.flatMap_cons] at *
    rw [List.flatMap_append, List.flatMap_append, ih]
    congr 1
    by_cases h1 : c = '\\'
    · subst h1; decide
    · by_cases h2 : c = '"'
      · subst h2; decide
      · by_cases h3 : c = '\n'
        · subst h3; decide
        · simp [escMap, h1, h2, h3]

/-! ### Subprocess model and Python errors -/

/-- Outcome of one `subprocess.run` invocation, as observed by the caller:
either the process completed with an exit code, captured standard output and
captured standard error, or the executable could not be found (Python raises
`FileNotFoundError` carrying the missing filename). -/
inductive SubOutcome where
  | completed (exitCode : Nat) (stdout stderr : String)
  | execNotFound (filename : String)
deriving DecidableEq

/-- The Python exceptions raised by the adapter layer. -/
inductive PyError where
  | valueError (msg : String)
  | runtimeError (msg : String)
  | fileNotFoundError (filename : String)
deriving DecidableEq

instance {ε α : Type} [DecidableEq ε] [DecidableEq α] : DecidableEq (Except ε α) := fun x y =>
  match x, y with
  | .ok a, .ok b =>
    if h : a = b then .isTrue (by rw [h]) else .isFalse fun hc => h (Except.ok.inj hc)
  | .error e, .error f =>
    if h : e = f then .isTrue (by rw [h]) else .isFalse fun hc => h (Except.error.inj hc)
  | .ok _, .error _ => .isFalse fun hc => Except.noConfusion hc
  | .error _, .ok _ => .isFalse fun hc => Except.noConfusion hc

/-- The text a caller sees for each error (CPython's default formatting for
`FileNotFoundError` raised by `subprocess.run`). -/
def PyError.message : PyError → String
  | .valueError m => m
  | .runtimeError m => m
  | .fileNotFoundError fn => "[Errno 2] No such file or directory: " ++ fn

/-- Embedding of `_run_osascript` (`messages.py` lines 10–18, identical copy in
`system.py`): `subprocess.run(["osascript", "-e", script], check=True, ...)`;
exit code zero returns `stdout.strip()`, a non-zero exit code (Python
`CalledProcessError`, caught) is re-raised as
`RuntimeError(f"AppleScript failed: {e.stderr}")`, and a missing executable
(`FileNotFoundError`) propagates uncaught. -/
def run_osascript (o : SubOutcome) : Except PyError String :=
  match o with
  | .completed 0 stdout _ => .ok (pyStrip stdout)
  | .completed _ _ stderr => .error (.runtimeError ("AppleScript failed: " ++ stderr))
  | .execNotFound fn => .error (.fileNotFoundError fn)

/-! ### shortcuts.py: ListShortcuts -/

/-- Embedding of `ListShortcuts._parse_shortcuts_list`:
`[line.strip() for line in output.splitlines() if line.strip()]`. -/
def parse_shortcuts_list (output : String) : List String :=
  ((pySplitlines output).filter fun line => !(isBlank line)).map pyStrip

/-- Embedding of `ListShortcuts.process` (`shortcuts.py` lines 39–54):
runs `shortcuts list`; a missing executable is mapped to a `RuntimeError`
naming the tool and the minimum macOS version, a non-zero exit to a
`RuntimeError` carrying the captured stderr, and success to the parsed
line list. -/
def listShortcuts_process (o : SubOutcome) : Except PyError (List String) :=
  match o with
  | .completed 0 stdout _ => .ok (parse_shortcuts_list stdout)
  | .completed _ _ stderr => .error (.runtimeError ("Failed to list shortcuts: " ++ stderr))
  | .execNotFound _ =>
    .error (.runtimeError "The `shortcuts` CLI was not found. This node requires macOS 12+.")

/-! ### messages.py: record parsing and node processes -/

/-- One parsed record of `GetRecentMessages.process`. -/
structure MessageRecord where
  text : String
  sender : String
  date : String
  is_from_me : Bool
deriving DecidableEq

/-- Record construction from a field list, as in `GetRecentMessages.process`
lines 137–144: the first four delimiter-separated parts, stored verbatim
(`parts[3] == "true"` for the flag). -/
def mkMessageRecord (parts : List String) : MessageRecord :=
  { text := parts.getD 0 ""
    sender := parts.getD 1 ""
    date := parts.getD 2 ""
    is_from_me := parts.getD 3 "" = "true" }

/-- Embedding of the parsing loop of `GetRecentMessages.process` (lines
131–145): split on `"###MSG###"`, skip blank chunks, split each chunk on
`"|||"`, keep chunks with at least four fields. -/
def getRecentMessages_parse (out : String) : List MessageRecord :=
  (pySplit "###MSG###" out).filterMap fun msg_str =>
    if isBlank msg_str then none
    else if 4 ≤ (pySplit "|||" msg_str).length then
      some (mkMessageRecord (pySplit "|||" msg_str))
    else none

/-- Embedding of `GetRecentMessages.process` (lines 92–145); the participant
and limit fields only shape the AppleScript source, which is not modelled. -/
def getRecentMessages_process (_participant : String) (_limit : Nat) (o : SubOutcome) :
    Except PyError (List MessageRecord) :=
  match run_osascript o with
  | .error e => .error e
  | .ok out =>
    if out = "" || pyStartsWith out "ERROR:" then .ok []
    else .ok (getRecentMessages_parse out)

/-- One parsed record of `SearchMessages.process` (five fields). -/
structure SearchRecord where
  conversation : String
  text : String
  sender : String
  date : String
  is_from_me : Bool
deriving DecidableEq

/-- Record construction from a field list, as in `SearchMessages.process`
lines 376–384. -/
def mkSearchRecord (parts : List String) : SearchRecord :=
  { conversation := parts.getD 0 ""
    text := parts.getD 1 ""
    sender := parts.getD 2 ""
    date := parts.getD 3 ""
    is_from_me := parts.getD 4 "" = "true" }

/-- Embedding of the parsing loop of `SearchMessages.process` (lines 370–385). -/
def searchMessages_parse (out : String) : List SearchRecord :=
  (pySplit "###MSG###" out).filterMap fun msg_str =>
    if isBlank msg_str then none
    else if 5 ≤ (pySplit "|||" msg_str).length then
      some (mkSearchRecord (pySplit "|||" msg_str))
    else none

/-- Embedding of `SearchMessages.process` (lines 311–385): a blank query
raises `ValueError` before any external call; otherwise the reply is parsed,
with empty or `ERROR:`-prefixed replies mapped to the empty list. -/
def searchMessages_process (query _participant : String) (_limit : Nat) (o : SubOutcome) :
    Except PyError (List SearchRecord) :=
  if isBlank query then .error (.valueError "Search query is required")
  else
    match run_osascript o with
    | .error e => .error e
    | .ok out =>
      if out = "" || pyStartsWith out "ERROR:" then .ok []
      else .ok (searchMessages_parse out)

/-- One parsed record of `ListConversations.process`. -/
structure ConversationRecord where
  name : String
  id : String
  participants : List String
  message_count : Nat
deriving DecidableEq

/-- Record construction from a field list, as in `ListConversations.process`
lines 223–230: participants are split on `","`, blank entries dropped and the
rest stripped; the message count is `int(parts[3])` when `parts[3].isdigit()`
and `0` otherwise. -/
def mkConversationRecord (parts : List String) : ConversationRecord :=
  { name := parts.getD 0 ""
    id := parts.getD 1 ""
    participants :=
      ((pySplit "," (parts.getD 2 "")).filter fun p => !(isBlank p)).map pyStrip
    message_count :=
      if pyIsDigitStr (parts.getD 3 "") then parseNatDigits (parts.getD 3 "") else 0 }

/-- Embedding of the parsing loop of `ListConversations.process` (lines
217–232): split on `"###CHAT###"`, skip blank chunks, keep chunks with at
least four `"|||"`-separated fields. -/
def listConversations_parse (out : String) : List ConversationRecord :=
  (pySplit "###CHAT###" out).filterMap fun chat_str =>
    if isBlank chat_str then none
    else if 4 ≤ (pySplit "|||" chat_str).length then
      some (mkConversationRecord (pySplit "|||" chat_str))
    else none

/-- Embedding of `SendMessage.process` (`messages.py` lines 42–59), returning
the Python result together with the number of subprocess invocations
performed: a blank recipient or blank text raises `ValueError` before any
external call; otherwise exactly one `osascript` call is made and `True` is
returned on success. -/
def sendMessage_process (recipient text : String) (o : SubOutcome) :
    Except PyError Bool × Nat :=
  if isBlank recipient then (.error (.valueError "Recipient is required"), 0)
  else if isBlank text then (.error (.valueError "Message text is required"), 0)
  else
    match run_osascript o with
    | .error e => (.error e, 1)
    | .ok _ => (.ok true, 1)

/-! ### mail.py: GetSelectedMailMessages -/

/-- One parsed record of `GetSelectedMailMessages.process`. -/
structure MailRecord where
  subject : String
  sender : String
  date : String
  content : String
deriving DecidableEq

/-- Record construction from a field list, as in `GetSelectedMailMessages.process`
lines 149–156: the first four fields, stored verbatim. -/
def mkMailRecord (parts : List String) : MailRecord :=
  { subject := parts.getD 0 ""
    sender := parts.getD 1 ""
    date := parts.getD 2 ""
    content := parts.getD 3 "" }

/-- Embedding of the parsing loop of `GetSelectedMailMessages.process`
(`mail.py` lines 143–157). -/
def getSelectedMailMessages_parse (out : String) : List MailRecord :=
  (pySplit "###MSG###" out).filterMap fun msg_str =>
    if isBlank msg_str then none
    else if 4 ≤ (pySplit "|||" msg_str).length then
      some (mkMailRecord (pySplit "|||" msg_str))
    else none

/-- Embedding of `GetSelectedMailMessages.process` (`mail.py` lines 123–157):
an empty reply yields the empty list, otherwise the reply is parsed. -/
def getSelectedMailMessages_process (o : SubOutcome) : Except PyError (List MailRecord) :=
  match run_osascript o with
  | .error e => .error e
  | .ok out => if out = "" then .ok [] else .ok (getSelectedMailMessages_parse out)

/-! ### The shared delimited-output parsing idiom -/

/-- The delimited-output parsing idiom shared by `GetRecentMessages`,
`ListConversations`, `SearchMessages` (messages.py) and
`GetSelectedMailMessages` (mail.py): split the reply on the record delimiter,
skip record chunks that are empty or whitespace-only, split each remaining
chunk on the field delimiter, and keep exactly the chunks with at least
`expected` fields, verbatim. -/
def parse_delimited (recordDelim fieldDelim : String) (expected : Nat) (out : String) :
    List (List String) :=
  (pySplit recordDelim out).filterMap fun chunk =>
    if isBlank chunk then none
    else if expected ≤ (pySplit fieldDelim chunk).length then
      some (pySplit fieldDelim chunk)
    else none

/-! ### system.py: volume and application nodes -/

/-- The request structure of `SetSystemVolume` (`system.py` lines 53–82). -/
structure SetSystemVolume where
  volume : Int
deriving DecidableEq

/-- Construction-time validation of a `SetSystemVolume` request: the `volume`
field is declared `Field(default=50, ge=0, le=100)`, so pydantic accepts the
value exactly when `0 ≤ v ≤ 100` and rejects it with a validation error
otherwise, before any external call (construction involves no subprocess). -/
def setSystemVolume_construct (v : Int) : Option SetSystemVolume :=
  if 0 ≤ v ∧ v ≤ 100 then some ⟨v⟩ else none

/-- Embedding of `QuitApplication.process` (`system.py` lines 388–404): a blank
`app_name` raises `ValueError`; otherwise the quit script is run and any
`RuntimeError` from `_run_osascript` is swallowed (`except RuntimeError: pass`),
so `True` is returned; only a non-`RuntimeError` exception (a missing
executable's `FileNotFoundError`) propagates. -/
def quitApplication_process (app_name : String) (_save_changes : Bool) (o : SubOutcome) :
    Except PyError Bool :=
  if isBlank app_name then .error (.valueError "app_name is required")
  else
    match run_osascript o with
    | .ok _ => .ok true
    | .error (.runtimeError _) => .ok true
    | .error e => .error e

/-! ### spotlight.py: SpotlightSearch -/

/-- Embedding of the reply parsing in `SpotlightSearch._run_mdfind`
(`spotlight.py` lines 53–55): split the `mdfind -0` output on NUL bytes,
drop empty chunks, then drop whitespace-only chunks. -/
def run_mdfind_parse (stdout : String) : List String :=
  ((pySplit "\x00" stdout).filter fun p => p ≠ "").filter fun p => !(isBlank p)

/-- Embedding of `SpotlightSearch.process` (`spotlight.py` lines 57–69) driven
by the `_run_mdfind` subprocess outcome: a blank query short-circuits to `[]`;
a missing `mdfind` raises a `RuntimeError` naming macOS; a non-zero exit
raises a `RuntimeError` with the stderr; on success the parsed paths are
truncated to `limit` only when `limit` is non-zero (Python
`if self.limit: paths = paths[:self.limit]`). -/
def spotlightSearch_process (query _only_in : String) (limit : Nat) (o : SubOutcome) :
    Except PyError (List String) :=
  if isBlank query then .ok []
  else
    match o with
    | .completed 0 stdout _ =>
      let paths := run_mdfind_parse stdout
      .ok (if limit ≠ 0 then paths.take limit else paths)
    | .completed _ _ stderr => .error (.runtimeError ("Spotlight search failed: " ++ stderr))
    | .execNotFound _ => .error (.runtimeError "`mdfind` not found (this node requires macOS).")

/-! ### Cacheability flags -/

/-- The request structure of `SpotlightSearch` (`spotlight.py` lines 23–28). -/
structure SpotlightSearchReq where
  query : String
  limit : Nat
  only_in : String
deriving DecidableEq

/-- The request structure of `GetDesktopPath` (`finder.py`): no fields. -/
structure GetDesktopPathReq
deriving DecidableEq

/-- The request structure of `GetSystemVolume` (`system.py`): no fields. -/
structure GetSystemVolumeReq
deriving DecidableEq

/-- The request structure of `SendMessage` (`messages.py` lines 32–36). -/
structure SendMessageReq where
  recipient : String
  text : String
deriving DecidableEq

/-- `SpotlightSearch.is_cacheable` (`spotlight.py` lines 34–36): a classmethod
ignoring the instance, returning `True`. -/
def spotlightSearch_is_cacheable (_r : SpotlightSearchReq) : Bool := true

/-- `GetDesktopPath.is_cacheable` (`finder.py` lines 309–314): returns `True`. -/
def getDesktopPath_is_cacheable (_r : GetDesktopPathReq) : Bool := true

/-- `GetSystemVolume.is_cacheable` (`system.py` lines 43–45): returns `False`. -/
def getSystemVolume_is_cacheable (_r : GetSystemVolumeReq) : Bool := false

/-- `SendMessage.is_cacheable` (`messages.py` lines 38–40): returns `False`. -/
def sendMessage_is_cacheable (_r : SendMessageReq) : Bool := false

/-! ## Claim theorems -/

/-- C1: `escape_for_applescript` is pure and total over all strings and equals
the character-wise transformation that escapes exactly backslashes
(`\ → \\`), double quotes (`" → \"`) and newlines (newline → the two
characters `\n`), leaving every other character unchanged — so the sequential
three-pass definition never re-escapes earlier escaping; it maps the empty
string to itself, `Hello "World" \ Test` to `Hello \"World\" \\ Test`, and
`line1<newline>line2` to `line1\nline2`. -/
theorem escape_for_applescript_spec :
    (∀ s : String, escape_for_applescript s = ⟨s.data.flatMap escMap⟩)
    ∧ escape_for_applescript "" = ""
    ∧ escape_for_applescript "Hello \"World\" \\ Test" = "Hello \\\"World\\\" \\\\ Test"
    ∧ escape_for_applescript "line1\nline2" = "line1\\nline2" := by
  refine ⟨fun s => ?_, rfl, by decide, by decide⟩
  exact congrArg String.mk (escape_seq_eq_charwise s.data)

/-- C6: constructing a `SetSystemVolume` request succeeds exactly for
`0 ≤ volume ≤ 100`; out-of-range values are rejected at construction time
(no subprocess is involved in construction at all). -/
theorem setSystemVolume_range :
    (∀ v : Int, (setSystemVolume_construct v).isSome = true ↔ 0 ≤ v ∧ v ≤ 100)
    ∧ setSystemVolume_construct 101 = none
    ∧ setSystemVolume_construct (-1) = none
    ∧ setSystemVolume_construct 100 = some ⟨100⟩ := by
  refine ⟨fun v => ?_, by decide, by decide, by decide⟩
  unfold setSystemVolume_construct
  by_cases h : 0 ≤ v ∧ v ≤ 100 <;> simp [h]

/-- C7: the `is_cacheable` flag of each adapter is a fixed constant,
independent of the request instance, and follows the stable-query rule:
`SpotlightSearch` and `GetDesktopPath` (pure informational queries) report
`true`, while `GetSystemVolume` (volatile state) and `SendMessage` (side
effects) report `false`. -/
theorem is_cacheable_flags :
    (∀ r : SpotlightSearchReq, spotlightSearch_is_cacheable r = true)
    ∧ (∀ r : GetDesktopPathReq, getDesktopPath_is_cacheable r = true)
    ∧ (∀ r : GetSystemVolumeReq, getSystemVolume_is_cacheable r = false)
    ∧ (∀ r : SendMessageReq, sendMessage_is_cacheable r = false)
    ∧ (∀ r r' : SpotlightSearchReq,
        spotlightSearch_is_cacheable r = spotlightSearch_is_cacheable r')
    ∧ (∀ r r' : GetDesktopPathReq,
        getDesktopPath_is_cacheable r = getDesktopPath_is_cacheable r')
    ∧ (∀ r r' : GetSystemVolumeReq,
        getSystemVolume_is_cacheable r = getSystemVolume_is_cacheable r')
    ∧ (∀ r r' : SendMessageReq,
        sendMessage_is_cacheable r = sendMessage_is_cacheable r') :=
  ⟨fun _ => rfl, fun _ => rfl, fun _ => rfl, fun _ => rfl,
   fun _ _ => rfl, fun _ _ => rfl, fun _ _ => rfl, fun _ _ => rfl⟩

/-- C5: `SendMessage.process` raises a `ValueError` and performs zero
subprocess invocations exactly when the recipient or the text is blank
(empty or whitespace-only); with both fields non-blank it proceeds to the
external call (one subprocess invocation) and never raises a `ValueError`. -/
theorem sendMessage_validation :
    ∀ (recipient text : String) (o : SubOutcome),
      ((isBlank recipient || isBlank text) = true →
        (sendMessage_process recipient text o).2 = 0 ∧
        ∃ m, (sendMessage_process recipient text o).1 = .error (.valueError m))
      ∧ ((isBlank recipient || isBlank text) = false →
        (sendMessage_process recipient text o).2 = 1 ∧
        ∀ m, (sendMessage_process recipient text o).1 ≠ .error (.valueError m)) := by
  intro r t o
  refine ⟨fun h => ?_, fun h => ?_⟩
  · by_cases hr : isBlank r = true
    · exact ⟨by simp [sendMessage_process, hr],
        "Recipient is required", by simp [sendMessage_process, hr]⟩
    · have hr' : isBlank r = false := by simpa using hr
      have ht : isBlank t = true := by
        rcases Bool.or_eq_true_iff.mp h with h1 | h2
        · exact absurd h1 hr
        · exact h2
      exact ⟨by simp [sendMessage_process, hr', ht],
        "Message text is required", by simp [sendMessage_process, hr', ht]⟩
  · have hr := (Bool.or_eq_false_iff.mp h).1
    have ht := (Bool.or_eq_false_iff.mp h).2
    refine ⟨?_, fun m => ?_⟩ <;>
      (rcases o with ⟨code, out, err⟩ | fn
       · rcases code with _ | code <;> simp [sendMessage_process, hr, ht, run_osascript]
       · simp [sendMessage_process, hr, ht, run_osascript])

/-- Witness for C5 at concrete inputs: a whitespace-only recipient makes zero
subprocess calls; a non-blank pair makes exactly one. -/
theorem sendMessage_validation_witness :
    (sendMessage_process "  " "hello" (.completed 0 "" "")).2 = 0
    ∧ (sendMessage_process "+15551234" "hello" (.completed 0 "" "")).2 = 1 :=
  ⟨((sendMessage_validation "  " "hello" (.completed 0 "" "")).1 (by decide)).1,
   ((sendMessage_validation "+15551234" "hello" (.completed 0 "" "")).2 (by decide)).1⟩

/-- C8: for a non-blank `app_name`, `QuitApplication.process` returns `True`
for every completed-subprocess outcome — including non-zero exit codes, where
the underlying `_run_osascript` call does raise a `RuntimeError`, which the
node swallows as a deliberate best-effort exception to the
surface-everything policy. -/
theorem quitApplication_best_effort :
    ∀ (app_name : String) (save : Bool) (code : Nat) (stdout stderr : String),
      isBlank app_name = false →
      quitApplication_process app_name save (.completed code stdout stderr) = .ok true
      ∧ (code ≠ 0 →
          run_osascript (.completed code stdout stderr) =
            .error (.runtimeError ("AppleScript failed: " ++ stderr))) := by
  intro app save code out err h
  constructor
  · rcases code with _ | code <;> simp [quitApplication_process, run_osascript, h]
  · intro hc
    rcases code with _ | code
    · exact absurd rfl hc
    · simp [run_osascript]

/-- Witness for C8: quitting `Safari` still reports success when `osascript`
exits with code 1. -/
theorem quitApplication_best_effort_witness :
    quitApplication_process "Safari" true (.completed 1 "" "app is not running") = .ok true :=
  (quitApplication_best_effort "Safari" true 1 "" "app is not running" (by decide)).1

/-- C10: for a non-blank query, `SpotlightSearch.process` with `limit = 0`
returns every path parsed from the `mdfind` reply (no truncation), and with
`limit = n > 0` returns the first at-most-`n` parsed paths in order. -/
theorem spotlightSearch_limit_semantics :
    ∀ (query only_in stdout stderr : String),
      isBlank query = false →
      spotlightSearch_process query only_in 0 (.completed 0 stdout stderr) =
        .ok (run_mdfind_parse stdout)
      ∧ (∀ n : Nat, 0 < n →
          spotlightSearch_process query only_in n (.completed 0 stdout stderr) =
            .ok ((run_mdfind_parse stdout).take n)) := by
  intro q oi out err h
  refine ⟨by simp [spotlightSearch_process, h], fun n hn => ?_⟩
  simp [spotlightSearch_process, h, Nat.pos_iff_ne_zero.mp hn]

/-- Witness for C10: three parsed paths come back whole at `limit = 0` and
truncated to two at `limit = 2`. -/
theorem spotlightSearch_limit_semantics_witness :
    spotlightSearch_process "report" "" 0 (.completed 0 "a\x00b\x00c\x00" "") =
      .ok ["a", "b", "c"]
    ∧ spotlightSearch_process "report" "" 2 (.completed 0 "a\x00b\x00c\x00" "") =
      .ok ["a", "b"] := by
  have h := spotlightSearch_limit_semantics "report" "" "a\x00b\x00c\x00" "" (by decide)
  refine ⟨?_, ?_⟩
  · rw [h.1]; exact congrArg Except.ok (by decide)
  · rw [h.2 2 (by decide)]; exact congrArg Except.ok (by decide)

/-- C4 counterexample: when the `osascript` executable is missing, the
osascript script-runner (`_run_osascript`) does not raise an error naming the
required tool and a minimum OS version — the `FileNotFoundError` from
`subprocess.run` propagates uncaught, and its message mentions no OS
version at all. -/
theorem run_osascript_missing_exec_counterexample :
    run_osascript (.execNotFound "osascript") =
      .error (.fileNotFoundError "osascript")
    ∧ containsSubstr (PyError.message (.fileNotFoundError "osascript")) "macOS" = false :=
  ⟨rfl, by decide⟩

/-- C4 amended: every script runner returns the trimmed standard output
exactly on exit code zero and raises an error carrying the captured standard
error on a non-zero exit (never returning normally on failure, never raising
on success); on a missing executable, `ListShortcuts.process` raises an error
naming the `shortcuts` tool and the minimum OS version (macOS 12), while
`_run_osascript` lets the bare `FileNotFoundError` propagate. -/
theorem script_runner_contract :
    (∀ stdout stderr : String,
        run_osascript (.completed 0 stdout stderr) = .ok (pyStrip stdout))
    ∧ (∀ (code : Nat) (stdout stderr : String), code ≠ 0 →
        run_osascript (.completed code stdout stderr) =
          .error (.runtimeError ("AppleScript failed: " ++ stderr)))
    ∧ (∀ fn : String, run_osascript (.execNotFound fn) = .error (.fileNotFoundError fn))
    ∧ (∀ stdout stderr : String,
        listShortcuts_process (.completed 0 stdout stderr) = .ok (parse_shortcuts_list stdout))
    ∧ (∀ (code : Nat) (stdout stderr : String), code ≠ 0 →
        listShortcuts_process (.completed code stdout stderr) =
          .error (.runtimeError ("Failed to list shortcuts: " ++ stderr)))
    ∧ (∀ fn : String, ∃ msg,
        listShortcuts_process (.execNotFound fn) = .error (.runtimeError msg)
        ∧ containsSubstr msg "shortcuts" = true
        ∧ containsSubstr msg "macOS 12" = true) := by
  refine ⟨fun out err => rfl, fun code out err hc => ?_, fun fn => rfl,
    fun out err => rfl, fun code out err hc => ?_, fun fn => ?_⟩
  · rcases code with _ | code
    · exact absurd rfl hc
    · rfl
  · rcases code with _ | code
    · exact absurd rfl hc
    · rfl
  · exact ⟨"The `shortcuts` CLI was not found. This node requires macOS 12+.",
      rfl, by decide, by decide⟩

/-- Witness for the amended C4 at concrete inputs: both runners raise an
error carrying the captured stderr on a non-zero exit. -/
theorem script_runner_contract_witness :
    run_osascript (.completed 2 "out" "boom") =
      .error (.runtimeError "AppleScript failed: boom")
    ∧ listShortcuts_process (.completed 2 "out" "boom") =
      .error (.runtimeError "Failed to list shortcuts: boom") :=
  ⟨script_runner_contract.2.1 2 "out" "boom" (by decide),
   script_runner_contract.2.2.2.2.1 2 "out" "boom" (by decide)⟩

/-- C2 counterexample: `GetSelectedMailMessages.process` stores field values
verbatim — a reply whose first field carries a trailing space yields a
`subject` equal to the raw chunk `"Sub "`, which differs from its
whitespace-stripped form `"Sub"`. -/
theorem mail_fields_not_stripped_counterexample :
    getSelectedMailMessages_process
        (.completed 0 "Sub |||Bob|||Mon|||Body###MSG###" "") =
      .ok [{ subject := "Sub ", sender := "Bob", date := "Mon", content := "Body" }]
    ∧ pyStrip "Sub " = "Sub"
    ∧ ("Sub " : String) ≠ "Sub" :=
  ⟨by decide, by decide, by decide⟩

/-- C2 amended: in the delimited-output parsing adapters (`GetRecentMessages`
and `GetSelectedMailMessages`), every parsed record comes from a non-blank
delimiter-separated chunk of the reply and stores each field value verbatim —
equal to the corresponding field chunk with no whitespace removal. -/
theorem delimited_fields_verbatim :
    ∀ out : String,
      (∀ rec ∈ getRecentMessages_parse out,
        ∃ chunk ∈ pySplit "###MSG###" out,
          isBlank chunk = false ∧ 4 ≤ (pySplit "|||" chunk).length ∧
          rec = mkMessageRecord (pySplit "|||" chunk))
      ∧ (∀ rec ∈ getSelectedMailMessages_parse out,
        ∃ chunk ∈ pySplit "###MSG###" out,
          isBlank chunk = false ∧ 4 ≤ (pySplit "|||" chunk).length ∧
          rec = mkMailRecord (pySplit "|||" chunk)) := by
  intro out
  constructor <;> intro rec hrec <;>
    rcases List.mem_filterMap.mp hrec with ⟨chunk, hmem, hf⟩ <;>
    by_cases hb : isBlank chunk <;>
    by_cases hl : 4 ≤ (pySplit "|||" chunk).length <;>
    simp [hb, hl] at hf <;>
    exact ⟨chunk, hmem, by simpa using hb, hl, hf.symm⟩

/-- Witness for the amended C2: the record parsed from
`"a|||b|||c|||true###MSG###"` corresponds verbatim to its chunk. -/
theorem delimited_fields_verbatim_witness :
    ∃ chunk ∈ pySplit "###MSG###" "a|||b|||c|||true###MSG###",
      isBlank chunk = false ∧ 4 ≤ (pySplit "|||" chunk).length ∧
      ({ text := "a", sender := "b", date := "c", is_from_me := true } : MessageRecord) =
        mkMessageRecord (pySplit "|||" chunk) :=
  (delimited_fields_verbatim "a|||b|||c|||true###MSG###").1
    { text := "a", sender := "b", date := "c", is_from_me := true } (by decide)

/-- C3: the delimited-output parser splits on the record delimiter, drops
blank record chunks, drops records with fewer than the expected field count
without failing, and returns the surviving field lists verbatim; on
`"a|||b|||c###REC###d|||e|||f"` it yields exactly the two 3-field records,
a trailing record delimiter adds no extra record, and a malformed short
record is dropped; the parsing loops of `GetRecentMessages` and
`ListConversations` are instances of this parser. -/
theorem parse_delimited_contract :
    (∀ (rd fd : String) (k : Nat) (out : String) (r : List String),
        r ∈ parse_delimited rd fd k out →
          k ≤ r.length ∧
          ∃ chunk ∈ pySplit rd out, isBlank chunk = false ∧ r = pySplit fd chunk)
    ∧ parse_delimited "###REC###" "|||" 3 "a|||b|||c###REC###d|||e|||f" =
        [["a", "b", "c"], ["d", "e", "f"]]
    ∧ parse_delimited "###REC###" "|||" 3 "a|||b|||c###REC###d|||e|||f###REC###" =
        [["a", "b", "c"], ["d", "e", "f"]]
    ∧ parse_delimited "###REC###" "|||" 3 "a|||b###REC###d|||e|||f" = [["d", "e", "f"]]
    ∧ (∀ out : String,
        getRecentMessages_parse out =
          (parse_delimited "###MSG###" "|||" 4 out).map mkMessageRecord)
    ∧ (∀ out : String,
        listConversations_parse out =
          (parse_delimited "###CHAT###" "|||" 4 out).map mkConversationRecord) := by
  refine ⟨?_, by decide, by decide, by decide, ?_, ?_⟩
  · intro rd fd k out r hr
    rcases List.mem_filterMap.mp hr with ⟨chunk, hmem, hf⟩
    by_cases hb : isBlank chunk <;>
      by_cases hl : k ≤ (pySplit fd chunk).length <;>
      simp [hb, hl] at hf
    exact ⟨hf ▸ hl, chunk, hmem, by simpa using hb, hf.symm⟩
  · intro out
    unfold getRecentMessages_parse parse_delimited
    rw [List.map_filterMap]
    congr 1
    funext chunk
    by_cases hb : isBlank chunk <;>
      by_cases hl : 4 ≤ (pySplit "|||" chunk).length <;> simp [hb, hl]
  · intro out
    unfold listConversations_parse parse_delimited
    rw [List.map_filterMap]
    congr 1
    funext chunk
    by_cases hb : isBlank chunk <;>
      by_cases hl : 4 ≤ (pySplit "|||" chunk).length <;> simp [hb, hl]

/-- Witness for C3: the first record of the claim's example comes verbatim
from a non-blank chunk and has at least the expected three fields. -/
theorem parse_delimited_contract_witness :
    3 ≤ (["a", "b", "c"] : List String).length ∧
    ∃ chunk ∈ pySplit "###REC###" "a|||b|||c###REC###d|||e|||f",
      isBlank chunk = false ∧ (["a", "b", "c"] : List String) = pySplit "|||" chunk :=
  parse_delimited_contract.1 "###REC###" "|||" 3 "a|||b|||c###REC###d|||e|||f"
    ["a", "b", "c"] (by decide)

/-- Stripping preserves an `"ERROR:"` prefix: the prefix starts and ends with
non-whitespace characters, so `str.strip` removes nothing from it. -/
theorem pyStrip_keeps_ERROR (s : String) (h : pyStartsWith s "ERROR:" = true) :
    pyStartsWith (pyStrip s) "ERROR:" = true := by
  unfold pyStartsWith at h ⊢
  rw [List.isPrefixOf_iff_prefix] at h ⊢
  obtain ⟨t, ht⟩ := h
  show "ERROR:".data <+: pyStripList s.data
  rw [← ht]
  unfold pyStripList
  have hd : "ERROR:".data = 'E' :: "RROR:".data := rfl
  have hE : ¬(pyIsSpace 'E' = true) := by decide
  have h1 : List.dropWhile pyIsSpace ("ERROR:".data ++ t) = "ERROR:".data ++ t := by
    rw [hd, List.cons_append, List.dropWhile_cons, if_neg hE]
  rw [h1, List.reverse_append, List.dropWhile_append]
  by_cases hc : (t.reverse.dropWhile pyIsSpace).isEmpty
  · rw [if_pos hc]
    have h2 : List.dropWhile pyIsSpace "ERROR:".data.reverse = "ERROR:".data.reverse := by
      decide
    rw [h2, List.reverse_reverse]
  · rw [if_neg hc, List.reverse_append, List.reverse_reverse]
    exact List.prefix_append _ _

/-- C9: for `GetRecentMessages` and `SearchMessages`, an empty raw reply or a
raw reply beginning with `"ERROR:"` produces the empty list without raising:
script-internal errors are silently converted to an empty result. -/
theorem error_reply_yields_empty :
    ∀ (participant query : String) (limit : Nat) (s stderr : String),
      (s = "" ∨ pyStartsWith s "ERROR:" = true) →
      getRecentMessages_process participant limit (.completed 0 s stderr) = .ok []
      ∧ (isBlank query = false →
          searchMessages_process query participant limit (.completed 0 s stderr) = .ok []) := by
  intro part q lim s err h
  rcases h with rfl | h
  · have h0 : pyStrip "" = "" := rfl
    exact ⟨rfl, fun hq => by simp [searchMessages_process, hq, run_osascript, h0]⟩
  · have hpre := pyStrip_keeps_ERROR s h
    constructor
    · simp [getRecentMessages_process, run_osascript, hpre]
    · intro hq
      simp [searchMessages_process, hq, run_osascript, hpre]

/-- Witness for C9: a reply reporting a script error yields empty results in
both nodes. -/
theorem error_reply_yields_empty_witness :
    getRecentMessages_process "p" 20 (.completed 0 "ERROR:no chat" "") = .ok []
    ∧ searchMessages_process "hello" "p" 50 (.completed 0 "ERROR:no chat" "") = .ok [] :=
  ⟨(error_reply_yields_empty "p" "hello" 20 "ERROR:no chat" "" (Or.inr (by decide))).1,
   (error_reply_yields_empty "p" "hello" 50 "ERROR:no chat" "" (Or.inr (by decide))).2
     (by decide)⟩

end NodetoolApple
